import Mathlib

/-!
Shallow embedding of the two upload handlers of the media-hosting service
(`handler_upload_video.go`: `handlerUploadVideo` and `handlerUploadThumbnail`),
together with the helper functions they call (`getVideoAspectRatio`,
`processVideoForFastStart`'s output-path computation, the hex rendering of the
random S3 key and Go's `base64.RawURLEncoding` of the random thumbnail name).

External collaborators (JWT validation, the record store, the S3 client,
`ffmpeg`/`ffprobe`, the filesystem) are modelled as oracle fields of a request
environment: each oracle's value is the outcome the collaborator would report,
and the handler body is translated statement by statement from the Go source.
Side effects (files created/removed, S3 puts, record updates) are collected in
an explicit effect list in program order, with Go `defer`s appended at the
return point in last-in-first-out order, exactly where the source runs them.

Go's `float64` aspect-ratio arithmetic is embedded exactly: every IEEE 754
binary64 value is a rational, and `roundDouble` below rounds a rational to the
nearest binary64 value (ties to even) by integer mantissa arithmetic, so the
classifier computes with precisely the doubles the program computes — including
boundary inputs where rounding makes the `float64` comparison disagree with its
exact-arithmetic reading.  The only deviations, stated at the definitions that
make them: over- and underflow are not modelled (every quantity this program
computes is zero or normal-range), and a zero divisor yields the rational `0`
rather than IEEE `±Inf`/`NaN` — at such inputs both evaluations classify
`"other"`.
-/

namespace Storage

-- Batteries marks the rational-number operations `@[irreducible]` so that
-- `simp` and unification do not unfold them by accident; the kernel ignores
-- reducibility attributes either way.  Restoring semireducibility lets
-- `decide` evaluate concrete rational arithmetic (the binary64 rounding
-- below) during elaboration as well.
attribute [local semireducible] Rat.mul Rat.inv Rat.add Rat.sub

/-- One stream of `ffprobe`'s JSON output (`videoStream` in the Go source):
`Width`/`Height` decode from JSON integers. -/
structure VideoStream where
  width : Int
  height : Int
deriving DecidableEq, Repr

/-- `ffprobeOutput` in the Go source: the list of streams `ffprobe` reports. -/
structure FfprobeOutput where
  streams : List VideoStream
deriving DecidableEq, Repr

/-! ### Exact binary64 rounding

An IEEE 754 binary64 value is a rational `m · 2^e` with `2^52 ≤ m < 2^53`
(or zero); the arithmetic the Go code runs — `float64` conversion, division,
subtraction, the constants `16.0/9.0`, `9.0/16.0`, `0.01` — is each exact
rational arithmetic followed by rounding to the nearest such value, ties to
even.  `roundDouble` implements that rounding by integer mantissa arithmetic.
Over- and underflow are not modelled: every quantity reachable in this program
(ratios of 64-bit integers, their distances to the constants) is zero or lies
well inside the normal range, where the model is exact. -/

/-- Fueled floor of log₂ (`0` for `n ≤ 1`): exact whenever `n < 2 ^ fuel`;
the fuel `2048` used below covers every numerator and denominator a
normal-range computation can produce. -/
def natLog2 : Nat → Nat → Nat
  | 0, _ => 0
  | fuel + 1, n => if 2 ≤ n then natLog2 fuel (n / 2) + 1 else 0

/-- `2 ^ e` as a rational, for an integer exponent. -/
def pow2Z (e : Int) : ℚ :=
  match e with
  | .ofNat n => ((2 ^ n : Nat) : ℚ)
  | .negSucc n => 1 / ((2 ^ (n + 1) : Nat) : ℚ)

/-- Whether `2 ^ k ≤ a / b`, for positive naturals `a`, `b` and an integer
`k`, by clearing denominators. -/
def pow2Le (k : Int) (a b : Nat) : Bool :=
  if 0 ≤ k then decide (b * 2 ^ k.toNat ≤ a) else decide (b ≤ a * 2 ^ (-k).toNat)

/-- The floor of log₂ of the positive rational `a / b`: the difference of the
factors' logs is within one of the answer, fixed up by one direct
comparison. -/
def ratFloorLog2 (a b : Nat) : Int :=
  let g : Int := (natLog2 2048 a : Int) - (natLog2 2048 b : Int)
  if pow2Le g a b then g else g - 1

/-- Round the positive rational `a / b` to the nearest binary64 value (ties to
even), as an exact rational: scale into the value's binade `[2^52, 2^53)`,
take the integer quotient and decide the final unit from twice the remainder.
A carry to `2^53` lands on the base of the next binade, which is the correct
value there. -/
def roundPos (a b : Nat) : ℚ :=
  let e : Int := ratFloorLog2 a b - 52
  let num := a * 2 ^ (max 0 (-e)).toNat
  let den := b * 2 ^ (max 0 e).toNat
  let q := num / den
  let r := num % den
  let m := if 2 * r < den then q else if den < 2 * r then q + 1
           else if q % 2 = 0 then q else q + 1
  (m : ℚ) * pow2Z e

/-- Round a rational to the nearest binary64 value: sign-symmetric wrapper
around `roundPos` (IEEE round-to-nearest-even is symmetric under negation);
zero maps to zero. -/
def roundDouble (x : ℚ) : ℚ :=
  if x.num = 0 then 0
  else if 0 < x.num then roundPos x.num.toNat x.den
  else - roundPos (-x.num).toNat x.den

/-- The binary64 value of the Go constant expression `16.0 / 9.0`. -/
def const169 : ℚ := roundDouble (16 / 9)

/-- The binary64 value of `9.0 / 16.0` (exactly representable: `9/16`). -/
def const916 : ℚ := roundDouble (9 / 16)

/-- The binary64 value of the Go constant `0.01` (`tolerance` in the
source). -/
def const001 : ℚ := roundDouble (1 / 100)

/-- `getVideoAspectRatio`, translated from the Go source (lines 30–67), applied
to an already-parsed probe result (the `exec`/`json.Unmarshal` failure paths
are handled at the call site in the handler model).  Every `float64` step is
embedded exactly: the `int → float64` conversions, the division and the
subtractions round to the nearest binary64 value via `roundDouble`, `math.Abs`
and the `<` comparisons are exact on doubles, and the compared constants are
the rounded `16.0/9.0`, `9.0/16.0` and `0.01`.  One deviation: a zero
`height` makes the embedded division yield the rational `0` where IEEE gives
`±Inf` (or `NaN` for `0/0`); both evaluations classify such inputs
`"other"`. -/
def getVideoAspectRatio (probe : FfprobeOutput) : String :=
  match probe.streams with
  | [] => "other"
  | s :: _ =>
    let width : ℚ := roundDouble (s.width : ℚ)
    let height : ℚ := roundDouble (s.height : ℚ)
    let aspectRatio : ℚ := roundDouble (width / height)
    if aspectRatio > 1 then
      if |roundDouble (aspectRatio - const169)| < const001 then "landscape" else "other"
    else
      if |roundDouble (aspectRatio - const916)| < const001 then "portrait" else "other"

/-- The classification rule as the spec states it (§4.4) read in exact real
arithmetic, written from the spec's words: no stream → `other`; `ratio > 1`
and `|ratio − 16/9| < 0.01` → `landscape`; `ratio ≤ 1` and
`|ratio − 9/16| < 0.01` → `portrait`; otherwise `other`.  The program's
`float64` evaluation diverges from this exact reading at boundary inputs
(C2's counterexample); C2 compares the two. -/
def specClassifyAspect (probe : FfprobeOutput) : String :=
  match probe.streams with
  | [] => "other"
  | s :: _ =>
    let ratio : ℚ := (s.width : ℚ) / (s.height : ℚ)
    if ratio > 1 ∧ |ratio - 16 / 9| < 1 / 100 then "landscape"
    else if ratio ≤ 1 ∧ |ratio - 9 / 16| < 1 / 100 then "portrait"
    else "other"

/-- The spec's classification rule evaluated the way the program evaluates it:
the same flat guards as `specClassifyAspect`, with the ratio, the differences
and the constants all rounded to binary64.  Written from the spec's words to
be compared with `getVideoAspectRatio`'s nested branches. -/
def specClassifyAspect64 (probe : FfprobeOutput) : String :=
  match probe.streams with
  | [] => "other"
  | s :: _ =>
    let ratio : ℚ := roundDouble (roundDouble (s.width : ℚ) / roundDouble (s.height : ℚ))
    if ratio > 1 ∧ |roundDouble (ratio - const169)| < const001 then "landscape"
    else if ratio ≤ 1 ∧ |roundDouble (ratio - const916)| < const001 then "portrait"
    else "other"

/-- Output path of `processVideoForFastStart` (Go line 70): the input path with
`".processed"` appended. -/
def processedFilePath (filePath : String) : String :=
  filePath ++ ".processed"

/-- One lowercase hex digit, as Go's `%x` verb renders a nibble. -/
def hexDigit (n : Nat) : Char :=
  if n < 10 then Char.ofNat (48 + n) else Char.ofNat (87 + n)

/-- Go's `fmt.Sprintf("%x", bytes)` on a byte slice: two lowercase hex digits
per byte, high nibble first. -/
def hexEncode (bs : List (Fin 256)) : String :=
  String.mk (bs.foldr (fun b acc => hexDigit (b.val / 16) :: hexDigit (b.val % 16) :: acc) [])

/-- One digit of the URL-safe base64 alphabet (RFC 4648 §5, the alphabet of
Go's `base64.RawURLEncoding`): `A–Z`, `a–z`, `0–9`, `-`, `_`. -/
def base64UrlDigit (n : Nat) : Char :=
  if n < 26 then Char.ofNat (65 + n)
  else if n < 52 then Char.ofNat (97 + (n - 26))
  else if n < 62 then Char.ofNat (48 + (n - 52))
  else if n = 62 then '-'
  else '_'

/-- The 6-bit groups of the base64 encoding of a byte list: full 3-byte blocks
yield 4 digits; a 2-byte tail yields 3 digits and a 1-byte tail 2 digits
(no padding, as in Go's `base64.RawURLEncoding`). -/
def base64Groups : List (Fin 256) → List Nat
  | b0 :: b1 :: b2 :: rest =>
      b0.val / 4 :: (b0.val % 4 * 16 + b1.val / 16) ::
        (b1.val % 16 * 4 + b2.val / 64) :: b2.val % 64 :: base64Groups rest
  | [b0, b1] => [b0.val / 4, b0.val % 4 * 16 + b1.val / 16, b1.val % 16 * 4]
  | [b0] => [b0.val / 4, b0.val % 4 * 16]
  | [] => []

/-- Go's `base64.RawURLEncoding.EncodeToString`: URL-safe alphabet, no
padding. -/
def base64RawUrlEncode (bs : List (Fin 256)) : String :=
  String.mk ((base64Groups bs).map base64UrlDigit)

/-- The extension the thumbnail handler derives from the validated media type
(the Go `switch` on lines 267–273; the `default` of an empty string is
unreachable after validation but kept for fidelity). -/
def thumbExtension (mediaType : String) : String :=
  if mediaType = "image/jpeg" then ".jpg"
  else if mediaType = "image/png" then ".png"
  else ""

/-- The video record (`database.Video`): the handlers read `UserID` and
overwrite one of the two URL fields. -/
structure Video where
  id : Nat
  userID : Nat
  thumbnailURL : Option String
  videoURL : Option String
deriving DecidableEq, Repr

/-- The configuration fields of `apiConfig` the two handlers consult. -/
structure ApiConfig where
  jwtSecret : String
  s3Bucket : String
  s3Region : String
  port : String
  assetsRoot : String
deriving DecidableEq, Repr

/-- An observable side effect of one request, recorded in program order:
files created on disk (`os.CreateTemp`, `os.Create`, `ffmpeg`'s output),
files removed (`os.Remove`), S3 object puts and record-store updates. -/
inductive Effect where
  | fileCreated (path : String)
  | fileRemoved (path : String)
  | s3PutObject (bucket key contentType : String)
  | dbUpdateVideo (v : Video)
deriving DecidableEq, Repr

/-- What a handler call produces: the HTTP status and message written by
`respondWithError`/`respondWithJSON`, and the side effects performed. -/
structure HandlerResult where
  status : Nat
  message : String
  effects : List Effect
deriving DecidableEq, Repr

/-- `true` exactly for record-store updates. -/
def Effect.isRecordUpdate : Effect → Bool
  | .dbUpdateVideo _ => true
  | _ => false

/-- `true` exactly for S3 object puts. -/
def Effect.isS3Put : Effect → Bool
  | .s3PutObject _ _ _ => true
  | _ => false

/-- `true` for any write to disk or to the object store. -/
def Effect.isStorageWrite : Effect → Bool
  | .fileCreated _ => true
  | .s3PutObject _ _ _ => true
  | _ => false

/-- The files still existing on disk after a run: created paths in order, with
removed paths taken back out. -/
def remainingFiles (effects : List Effect) : List String :=
  effects.foldl
    (fun acc e =>
      match e with
      | .fileCreated p => acc ++ [p]
      | .fileRemoved p => acc.filter (fun q => q != p)
      | _ => acc) []

/-- `true` when the run updated the record store. -/
def recordMutated (r : HandlerResult) : Bool :=
  r.effects.any Effect.isRecordUpdate

/-- `true` when the run wrote to disk or to the object store. -/
def storageMutated (r : HandlerResult) : Bool :=
  r.effects.any Effect.isStorageWrite

/-- `1 << 30`: the video handler's `maxUploadSize` (1 GiB). -/
def maxUploadSize : Nat := 1 <<< 30

/-- `10 << 20`: the thumbnail handler's `maxMemory` argument to
`ParseMultipartForm` (10 MiB). -/
def maxMemory : Nat := 10 <<< 20

/-- The environment of one video-upload request: the request body size and the
outcome each external collaborator would report, consumed by
`handlerUploadVideo` in the order the Go source consults them.  `validateJWT`
stands for `auth.ValidateJWT(·, cfg.jwtSecret)`; `formFilePart` is
`r.FormFile("video")`'s outcome on a body within the size limit (`some ct`
carries the part's `Content-Type` header, `""` when the header is absent);
`ffmpegWroteOutputOnFailure` says whether a failing `ffmpeg` run left a
partially written output file behind. -/
structure VideoRequest where
  bodySize : Nat
  videoIDResult : Option Nat
  tokenResult : Option String
  validateJWT : String → Option Nat
  dbGetVideo : Nat → Option Video
  formFilePart : Option String
  parseMediaType : String → Option String
  createTempResult : Option String
  copyOk : Bool
  seekOk : Bool
  ffmpegOk : Bool
  ffmpegWroteOutputOnFailure : Bool
  ffprobeResult : Option FfprobeOutput
  randOk : Bool
  randomBytes : List (Fin 256)
  openProcessedOk : Bool
  putObjectOk : Bool
  updateVideoOk : Bool

/-- `handlerUploadVideo` (Go lines 78–196), translated statement by statement.
`http.MaxBytesReader(w, r.Body, maxUploadSize)` (line 80) makes every read of a
body larger than `maxUploadSize` fail, so `r.FormFile` (line 112) errors on an
oversized body: modelled from the Go `net/http` documentation as `FormFile`
yielding `none` whenever `bodySize > maxUploadSize`.  The two `defer
os.Remove` calls (lines 136 and 154) run at every subsequent return in
last-in-first-out order; the `defer` for the processed file is registered only
after `processVideoForFastStart` has succeeded. -/
def handlerUploadVideo (cfg : ApiConfig) (req : VideoRequest) : HandlerResult :=
  match req.videoIDResult with
  | none => ⟨400, "Invalid ID", []⟩
  | some videoID =>
  match req.tokenResult with
  | none => ⟨401, "Couldn't find JWT", []⟩
  | some token =>
  match req.validateJWT token with
  | none => ⟨401, "Couldn't validate JWT", []⟩
  | some userID =>
  match req.dbGetVideo videoID with
  | none => ⟨500, "Couldn't find video", []⟩
  | some video =>
  if video.userID ≠ userID then
    ⟨401, "Not authorized to upload for this video", []⟩
  else
  match (if req.bodySize > maxUploadSize then none else req.formFilePart) with
  | none => ⟨400, "Unable to parse video file", []⟩
  | some contentType =>
  if contentType = "" then
    ⟨400, "Missing Content-Type for video", []⟩
  else
  match req.parseMediaType contentType with
  | none => ⟨400, "Invalid file type. Only MP4 videos are allowed.", []⟩
  | some mediaType =>
  if mediaType ≠ "video/mp4" then
    ⟨400, "Invalid file type. Only MP4 videos are allowed.", []⟩
  else
  match req.createTempResult with
  | none => ⟨500, "Failed to create temporary file", []⟩
  | some tmp =>
  if !req.copyOk then
    ⟨500, "Failed to copy video to temporary file", [.fileCreated tmp, .fileRemoved tmp]⟩
  else if !req.seekOk then
    ⟨500, "Failed to reset file pointer", [.fileCreated tmp, .fileRemoved tmp]⟩
  else if !req.ffmpegOk then
    ⟨500, "Failed to process video for fast start",
      [.fileCreated tmp] ++
        (if req.ffmpegWroteOutputOnFailure then [.fileCreated (processedFilePath tmp)] else []) ++
        [.fileRemoved tmp]⟩
  else
  match req.ffprobeResult with
  | none =>
    ⟨500, "Failed to determine video aspect ratio",
      [.fileCreated tmp, .fileCreated (processedFilePath tmp),
        .fileRemoved (processedFilePath tmp), .fileRemoved tmp]⟩
  | some probe =>
  if !req.randOk then
    ⟨500, "Failed to generate random key",
      [.fileCreated tmp, .fileCreated (processedFilePath tmp),
        .fileRemoved (processedFilePath tmp), .fileRemoved tmp]⟩
  else
  let fileKey := getVideoAspectRatio probe ++ "/" ++ hexEncode req.randomBytes ++ ".mp4"
  if !req.openProcessedOk then
    ⟨500, "Failed to open processed file",
      [.fileCreated tmp, .fileCreated (processedFilePath tmp),
        .fileRemoved (processedFilePath tmp), .fileRemoved tmp]⟩
  else if !req.putObjectOk then
    ⟨500, "Failed to upload video to S3",
      [.fileCreated tmp, .fileCreated (processedFilePath tmp),
        .fileRemoved (processedFilePath tmp), .fileRemoved tmp]⟩
  else
  let videoURL := "https://" ++ cfg.s3Bucket ++ ".s3." ++ cfg.s3Region ++ ".amazonaws.com/" ++ fileKey
  let video2 : Video := { video with videoURL := some videoURL }
  if !req.updateVideoOk then
    ⟨500, "Failed to update video metadata",
      [.fileCreated tmp, .fileCreated (processedFilePath tmp),
        .s3PutObject cfg.s3Bucket fileKey mediaType,
        .fileRemoved (processedFilePath tmp), .fileRemoved tmp]⟩
  else
    ⟨200, "",
      [.fileCreated tmp, .fileCreated (processedFilePath tmp),
        .s3PutObject cfg.s3Bucket fileKey mediaType,
        .dbUpdateVideo video2,
        .fileRemoved (processedFilePath tmp), .fileRemoved tmp]⟩

/-- The environment of one thumbnail-upload request, mirroring
`handlerUploadThumbnail`'s collaborators.  `parseFormOk` is the outcome of
`r.ParseMultipartForm(maxMemory)`: per the Go `net/http` documentation its
`maxMemory` argument only bounds how much of the parsed form is buffered in
memory (the remainder spills to temporary files), so it is modelled as
independent of `bodySize` — no code path of this handler bounds the body
size. -/
structure ThumbnailRequest where
  bodySize : Nat
  videoIDResult : Option Nat
  tokenResult : Option String
  validateJWT : String → Option Nat
  parseFormOk : Bool
  formFilePart : Option String
  parseMediaType : String → Option String
  randOk : Bool
  randomBytes : List (Fin 256)
  createOk : Bool
  copyOk : Bool
  dbGetVideo : Nat → Option Video
  updateVideoOk : Bool

/-- `handlerUploadThumbnail` (Go lines 213–325), translated statement by
statement.  `filepath.Join(cfg.assetsRoot, name)` is embedded as
`cfg.assetsRoot ++ "/" ++ name` (its value on clean, non-empty components).
Note the source order: the file is generated and written to disk (lines
276–300) before the record is fetched and the ownership check runs (lines
305–314). -/
def handlerUploadThumbnail (cfg : ApiConfig) (req : ThumbnailRequest) : HandlerResult :=
  match req.videoIDResult with
  | none => ⟨400, "Invalid ID", []⟩
  | some videoID =>
  match req.tokenResult with
  | none => ⟨401, "Couldn't find JWT", []⟩
  | some token =>
  match req.validateJWT token with
  | none => ⟨401, "Couldn't validate JWT", []⟩
  | some userID =>
  if !req.parseFormOk then
    ⟨400, "Error parsing form data", []⟩
  else
  match req.formFilePart with
  | none => ⟨400, "Unable to parse form file", []⟩
  | some contentType =>
  if contentType = "" then
    ⟨400, "Missing Content-Type for thumbnail", []⟩
  else
  match req.parseMediaType contentType with
  | none => ⟨400, "Invalid Content-Type format", []⟩
  | some mediaType =>
  if mediaType ≠ "image/jpeg" ∧ mediaType ≠ "image/png" then
    ⟨400, "Unsupported file type. Only JPEG and PNG are allowed.", []⟩
  else
  let extension := thumbExtension mediaType
  if !req.randOk then
    ⟨500, "Failed to generate random filename", []⟩
  else
  let randomFileName := base64RawUrlEncode req.randomBytes
  let filePath := cfg.assetsRoot ++ "/" ++ randomFileName ++ extension
  if !req.createOk then
    ⟨500, "Failed to create file on disk", []⟩
  else if !req.copyOk then
    ⟨500, "Failed to save file to disk", [.fileCreated filePath]⟩
  else
  let thumbnailURL := "http://localhost:" ++ cfg.port ++ "/assets/" ++ randomFileName ++ extension
  match req.dbGetVideo videoID with
  | none => ⟨500, "Couldn't find video", [.fileCreated filePath]⟩
  | some video =>
  if video.userID ≠ userID then
    ⟨401, "Not authorized to update this video", [.fileCreated filePath]⟩
  else
  let video2 : Video := { video with thumbnailURL := some thumbnailURL }
  if !req.updateVideoOk then
    ⟨500, "Couldn't update video", [.fileCreated filePath]⟩
  else
    ⟨200, "", [.fileCreated filePath, .dbUpdateVideo video2]⟩

/-! ## Helper lemmas about the encoders and the classifier -/

/-- The sixteen characters Go's `%x` verb can produce. -/
def hexAlphabet : List Char := "0123456789abcdef".toList

/-- The URL-safe base64 alphabet of RFC 4648 §5. -/
def base64UrlAlphabet : List Char :=
  "ABCDEFGHIJKLMNOPQRSTUVWXYZabcdefghijklmnopqrstuvwxyz0123456789-_".toList

theorem hexDigit_mem : ∀ n : Fin 16, hexDigit n.val ∈ hexAlphabet := by decide

theorem base64UrlDigit_mem : ∀ n : Fin 64, base64UrlDigit n.val ∈ base64UrlAlphabet := by decide

theorem hexEncode_length (bs : List (Fin 256)) : (hexEncode bs).length = 2 * bs.length := by
  induction bs with
  | nil => rfl
  | cons b rest ih =>
    simp only [hexEncode, List.foldr] at *
    simp [String.length, List.length] at *
    omega

theorem hexEncode_mem (bs : List (Fin 256)) :
    ∀ c ∈ (hexEncode bs).data, c ∈ hexAlphabet := by
  induction bs with
  | nil => intro c hc; simp [hexEncode] at hc
  | cons b rest ih =>
    intro c hc
    simp only [hexEncode, List.foldr, List.mem_cons] at hc
    rcases hc with rfl | rfl | hc
    · exact hexDigit_mem ⟨b.val / 16, by omega⟩
    · exact hexDigit_mem ⟨b.val % 16, by omega⟩
    · exact ih c hc

theorem base64Groups_length (bs : List (Fin 256)) :
    (base64Groups bs).length = (4 * bs.length + 2) / 3 := by
  induction bs using base64Groups.induct with
  | case1 b0 b1 b2 rest ih => simp [base64Groups, ih]; omega
  | case2 b0 b1 => simp [base64Groups]
  | case3 b0 => simp [base64Groups]
  | case4 => rfl

theorem base64Groups_lt (bs : List (Fin 256)) : ∀ x ∈ base64Groups bs, x < 64 := by
  induction bs using base64Groups.induct with
  | case1 b0 b1 b2 rest ih =>
    intro x hx
    simp only [base64Groups, List.mem_cons] at hx
    rcases hx with rfl | rfl | rfl | rfl | hx
    · omega
    · have := b1.isLt; omega
    · have := b2.isLt; omega
    · have := b2.isLt; omega
    · exact ih x hx
  | case2 b0 b1 =>
    intro x hx
    simp only [base64Groups, List.mem_cons] at hx
    rcases hx with rfl | rfl | rfl | hx
    · omega
    · have := b1.isLt; omega
    · have := b1.isLt; omega
    · simp at hx
  | case3 b0 =>
    intro x hx
    simp only [base64Groups, List.mem_cons] at hx
    rcases hx with rfl | rfl | hx
    · omega
    · omega
    · simp at hx
  | case4 => intro x hx; simp [base64Groups] at hx

theorem base64RawUrlEncode_length (bs : List (Fin 256)) :
    (base64RawUrlEncode bs).length = (4 * bs.length + 2) / 3 := by
  simpa [base64RawUrlEncode, String.length] using base64Groups_length bs

theorem base64RawUrlEncode_mem (bs : List (Fin 256)) :
    ∀ c ∈ (base64RawUrlEncode bs).data, c ∈ base64UrlAlphabet := by
  intro c hc
  simp only [base64RawUrlEncode, List.mem_map] at hc
  obtain ⟨x, hx, rfl⟩ := hc
  exact base64UrlDigit_mem ⟨x, base64Groups_lt bs x hx⟩

/-- Validation of the rounding model against independently computed binary64
values: the three constants of the source, exact representability of `9/16`,
the ratio and difference of C2's boundary input, ties to even on both sides of
`2^52`, conversion rounding of odd integers above `2^53`, and sign
symmetry at a concrete value. -/
theorem roundDouble_validation :
    const169 = 2001599834386887 / 1125899906842624 ∧
    const916 = 9 / 16 ∧
    const001 = 5764607523034235 / 576460752303423488 ∧
    roundDouble ((592344334781189 : ℚ) / 1072116443042876) =
      2488238794122199 / 4503599627370496 ∧
    roundDouble (2488238794122199 / 4503599627370496 - 9 / 16) =
      -45035996273705 / 4503599627370496 ∧
    roundDouble ((4503599627370496 : ℚ) + 1 / 2) = 4503599627370496 ∧
    roundDouble ((4503599627370496 : ℚ) + 3 / 2) = 4503599627370498 ∧
    roundDouble (9007199254740993 : ℚ) = 9007199254740992 ∧
    roundDouble (9007199254740995 : ℚ) = 9007199254740996 ∧
    roundDouble (-(1 : ℚ) / 3) = - roundDouble (1 / 3) := by
  refine ⟨by decide, by decide, by decide, by decide, by decide, by decide, by decide,
    by decide, by decide, by decide⟩

theorem getVideoAspectRatio_mem (p : FfprobeOutput) :
    getVideoAspectRatio p = "landscape" ∨ getVideoAspectRatio p = "portrait" ∨
      getVideoAspectRatio p = "other" := by
  match p with
  | ⟨[]⟩ => simp [getVideoAspectRatio]
  | ⟨s :: rest⟩ =>
    simp only [getVideoAspectRatio]
    split_ifs <;> simp

/-- The URL shape the spec states for published video objects:
`https://{bucket}.s3.{region}.amazonaws.com/{classification}/{hex}.mp4` with an
orientation label and a hex filename component of the given length. -/
def isS3VideoURL (bucket region : String) (hexLen : Nat) (url : String) : Prop :=
  ∃ cls hex : String,
    (cls = "landscape" ∨ cls = "portrait" ∨ cls = "other") ∧
    hex.length = hexLen ∧ (∀ c ∈ hex.data, c ∈ hexAlphabet) ∧
    url = "https://" ++ bucket ++ ".s3." ++ region ++ ".amazonaws.com/" ++
      (cls ++ "/" ++ hex ++ ".mp4")

/-! ## Concrete fixtures

A sample configuration and sample requests used by the closed counterexample
and witness theorems.  `sampleVideo` is owned by user `2`; `validateJWT`
resolves the token `"tok"`. -/

def sampleConfig : ApiConfig := ⟨"secret", "bkt", "reg", "8091", "assets"⟩

def sampleVideo : Video := ⟨7, 2, none, none⟩

/-- A video-upload request in which every collaborator succeeds, the caller is
the record's owner (user 2), the staged MP4 probes with zero streams and the
16 random key bytes are all zero. -/
def vreqSuccess : VideoRequest where
  bodySize := 1000
  videoIDResult := some 7
  tokenResult := some "tok"
  validateJWT := fun t => if t = "tok" then some 2 else none
  dbGetVideo := fun i => if i = 7 then some sampleVideo else none
  formFilePart := some "video/mp4"
  parseMediaType := fun ct => some ct
  createTempResult := some "/tmp/tubely-upload-1.mp4"
  copyOk := true
  seekOk := true
  ffmpegOk := true
  ffmpegWroteOutputOnFailure := false
  ffprobeResult := some ⟨[]⟩
  randOk := true
  randomBytes := List.replicate 16 (0 : Fin 256)
  openProcessedOk := true
  putObjectOk := true
  updateVideoOk := true

/-- `vreqSuccess`, except `ffmpeg` exits non-zero after partially writing its
output file. -/
def vreqFfmpegFails : VideoRequest :=
  { vreqSuccess with ffmpegOk := false, ffmpegWroteOutputOnFailure := true }

/-- `vreqSuccess` with no bearer token on the request. -/
def vreqNoToken : VideoRequest := { vreqSuccess with tokenResult := none }

/-- `vreqSuccess` with no record stored under any identifier. -/
def vreqNotFound : VideoRequest := { vreqSuccess with dbGetVideo := fun _ => none }

/-- `vreqSuccess` with a body one byte over the 1 GiB limit. -/
def vreqOversized : VideoRequest := { vreqSuccess with bodySize := maxUploadSize + 1 }

/-- A thumbnail-upload request in which every collaborator succeeds: a PNG
part, the caller is the record's owner (user 2) and the 32 random filename
bytes are all zero. -/
def treqSuccess : ThumbnailRequest where
  bodySize := 1000
  videoIDResult := some 7
  tokenResult := some "tok"
  validateJWT := fun t => if t = "tok" then some 2 else none
  parseFormOk := true
  formFilePart := some "image/png"
  parseMediaType := fun ct => some ct
  randOk := true
  randomBytes := List.replicate 32 (0 : Fin 256)
  createOk := true
  copyOk := true
  dbGetVideo := fun i => if i = 7 then some sampleVideo else none
  updateVideoOk := true

/-- `treqSuccess`, but the valid JWT resolves to user 1, who does not own the
record (its owner is user 2). -/
def treqWrongOwner : ThumbnailRequest :=
  { treqSuccess with validateJWT := fun t => if t = "tok" then some 1 else none }

/-- `treqSuccess` with no bearer token on the request. -/
def treqNoToken : ThumbnailRequest := { treqSuccess with tokenResult := none }

/-- `treqSuccess` with no record stored under any identifier. -/
def treqNotFound : ThumbnailRequest := { treqSuccess with dbGetVideo := fun _ => none }

/-- `treqSuccess` with a 20 MiB body, twice the `maxMemory` figure. -/
def treqOversized : ThumbnailRequest := { treqSuccess with bodySize := 20 <<< 20 }

/-- `treqSuccess` with a GIF part. -/
def treqGif : ThumbnailRequest := { treqSuccess with formFilePart := some "image/gif" }

/-- The video URL `vreqSuccess` publishes: zero streams classify as `other`
and the sixteen zero bytes render as 32 hex zeros. -/
def urlZero : String :=
  "https://bkt.s3.reg.amazonaws.com/other/00000000000000000000000000000000.mp4"

/-! ## The claims -/

/-- C1, counterexample: an authenticated caller (user 1) who does not own the
record (owner: user 2) uploads a thumbnail.  The claim says the response is
forbidden (403) and nothing is persisted; in fact the handler responds 401 and
the thumbnail file has already been written to the assets directory when the
ownership check runs. -/
theorem ownership_mismatch_forbidden_counterexample :
    treqWrongOwner.validateJWT "tok" = some 1 ∧
    treqWrongOwner.dbGetVideo 7 = some sampleVideo ∧ sampleVideo.userID ≠ 1 ∧
    (handlerUploadThumbnail sampleConfig treqWrongOwner).status = 401 ∧
    (handlerUploadThumbnail sampleConfig treqWrongOwner).status ≠ 403 ∧
    remainingFiles (handlerUploadThumbnail sampleConfig treqWrongOwner).effects =
      ["assets/" ++ base64RawUrlEncode (List.replicate 32 (0 : Fin 256)) ++ ".png"] := by
  decide

/-- C1, amended: when the authenticated caller does not own the target record,
both handlers respond 401 unauthorized (not 403 forbidden), the record is not
updated and no object is uploaded to the object store; the video handler
performs no side effect at all, while the thumbnail handler has already
persisted the uploaded file to the assets directory before its ownership check
runs. -/
theorem ownership_mismatch_unauthorized_no_record_update
    (cfg : ApiConfig) (vreq : VideoRequest) (treq : ThumbnailRequest)
    (vid uid tid uid2 : Nat) (tok tok2 ct mt : String) (v w : Video)
    (h1 : vreq.videoIDResult = some vid) (h2 : vreq.tokenResult = some tok)
    (h3 : vreq.validateJWT tok = some uid) (h4 : vreq.dbGetVideo vid = some v)
    (h5 : v.userID ≠ uid)
    (g1 : treq.videoIDResult = some tid) (g2 : treq.tokenResult = some tok2)
    (g3 : treq.validateJWT tok2 = some uid2) (g4 : treq.parseFormOk = true)
    (g5 : treq.formFilePart = some ct) (g6 : ct ≠ "")
    (g7 : treq.parseMediaType ct = some mt)
    (g8 : mt = "image/jpeg" ∨ mt = "image/png")
    (g9 : treq.randOk = true) (g10 : treq.createOk = true) (g11 : treq.copyOk = true)
    (g12 : treq.dbGetVideo tid = some w) (g13 : w.userID ≠ uid2) :
    handlerUploadVideo cfg vreq = ⟨401, "Not authorized to upload for this video", []⟩ ∧
    (handlerUploadThumbnail cfg treq).status = 401 ∧
    recordMutated (handlerUploadThumbnail cfg treq) = false ∧
    (handlerUploadThumbnail cfg treq).effects.any Effect.isS3Put = false ∧
    remainingFiles (handlerUploadThumbnail cfg treq).effects =
      [cfg.assetsRoot ++ "/" ++ base64RawUrlEncode treq.randomBytes ++ thumbExtension mt] := by
  refine ⟨?_, ?_⟩
  · unfold handlerUploadVideo
    simp [h1, h2, h3, h4, h5]
  · unfold handlerUploadThumbnail
    rcases g8 with rfl | rfl <;>
      simp [g1, g2, g3, g4, g5, g6, g7, g9, g10, g11, g12, g13, thumbExtension,
        recordMutated, remainingFiles, Effect.isRecordUpdate, Effect.isS3Put]

/-- C1, witness: the amended theorem applied to the concrete mismatched-owner
requests. -/
theorem ownership_mismatch_unauthorized_no_record_update_witness :
    handlerUploadVideo sampleConfig
        { vreqSuccess with validateJWT := fun t => if t = "tok" then some 1 else none } =
      ⟨401, "Not authorized to upload for this video", []⟩ ∧
    (handlerUploadThumbnail sampleConfig treqWrongOwner).status = 401 ∧
    recordMutated (handlerUploadThumbnail sampleConfig treqWrongOwner) = false ∧
    (handlerUploadThumbnail sampleConfig treqWrongOwner).effects.any Effect.isS3Put = false ∧
    remainingFiles (handlerUploadThumbnail sampleConfig treqWrongOwner).effects =
      [sampleConfig.assetsRoot ++ "/" ++ base64RawUrlEncode treqWrongOwner.randomBytes ++
        thumbExtension "image/png"] :=
  ownership_mismatch_unauthorized_no_record_update sampleConfig
    { vreqSuccess with validateJWT := fun t => if t = "tok" then some 1 else none }
    treqWrongOwner 7 1 7 1 "tok" "tok" "image/png" "image/png" sampleVideo sampleVideo
    rfl rfl rfl rfl (by decide) rfl rfl rfl rfl rfl (by decide) rfl (Or.inr rfl)
    rfl rfl rfl rfl (by decide)

/-- C2, counterexample: at width `592344334781189`, height `1072116443042876`
(both below `2^53`, so the `int → float64` conversions are exact) the exact
ratio satisfies the spec rule's portrait condition — `ratio ≤ 1` and
`|ratio − 9/16| < 0.01` — yet the program's `float64` evaluation computes
`|fl(w/h) − 9/16| = 5764607523034240 / 2^59`, one unit above the double
`0.01 = 5764607523034235 / 2^59`, and returns `"other"`.  The claim's
universal exact-arithmetic reading is therefore false of the code. -/
theorem aspect_ratio_exact_rule_counterexample :
    getVideoAspectRatio ⟨[⟨592344334781189, 1072116443042876⟩]⟩ = "other" ∧
    specClassifyAspect ⟨[⟨592344334781189, 1072116443042876⟩]⟩ = "portrait" ∧
    (592344334781189 : ℚ) / 1072116443042876 ≤ 1 ∧
    |(592344334781189 : ℚ) / 1072116443042876 - 9 / 16| < 1 / 100 := by
  refine ⟨by decide, by decide, by decide, by decide⟩

/-- C2 (amended): the classification follows the spec's rule with its
arithmetic carried out in `float64` — ratio `fl(w/h)`, differences rounded,
constants `16.0/9.0`, `9.0/16.0`, `0.01` rounded — rather than in exact real
arithmetic: `getVideoAspectRatio` agrees with that rule on every probe result,
and the four stated examples (where the rounded and exact evaluations
coincide) hold: 1920×1080 → `landscape`, 1080×1920 → `portrait`,
1000×1000 → `other`, zero streams → `other`. -/
theorem aspect_ratio_float64_classification :
    (∀ p : FfprobeOutput, getVideoAspectRatio p = specClassifyAspect64 p) ∧
    getVideoAspectRatio ⟨[⟨1920, 1080⟩]⟩ = "landscape" ∧
    getVideoAspectRatio ⟨[⟨1080, 1920⟩]⟩ = "portrait" ∧
    getVideoAspectRatio ⟨[⟨1000, 1000⟩]⟩ = "other" ∧
    getVideoAspectRatio ⟨[]⟩ = "other" := by
  refine ⟨?_, by decide, by decide, by decide, rfl⟩
  intro p
  match p with
  | ⟨[]⟩ => rfl
  | ⟨s :: rest⟩ =>
    simp only [getVideoAspectRatio, specClassifyAspect64]
    by_cases h1 : roundDouble (roundDouble (s.width : ℚ) / roundDouble (s.height : ℚ)) > 1
    · by_cases h2 : |roundDouble (roundDouble (roundDouble (s.width : ℚ) /
          roundDouble (s.height : ℚ)) - const169)| < const001
      · rw [if_pos h1, if_pos h2, if_pos ⟨h1, h2⟩]
      · rw [if_pos h1, if_neg h2, if_neg (fun c => h2 c.2),
          if_neg (fun c => absurd h1 (not_lt.mpr c.1))]
    · by_cases h2 : |roundDouble (roundDouble (roundDouble (s.width : ℚ) /
          roundDouble (s.height : ℚ)) - const916)| < const001
      · rw [if_neg h1, if_pos h2, if_neg (fun c => h1 c.1), if_pos ⟨le_of_not_lt h1, h2⟩]
      · rw [if_neg h1, if_neg h2, if_neg (fun c => h1 c.1), if_neg (fun c => h2 c.2)]

/-- C3, counterexample: a fully successful video upload whose 16 random key
bytes render as 32 hex characters, so the published URL does not have the
64-hex-character shape the claim states. -/
theorem video_url_sixtyfour_hex_counterexample :
    (handlerUploadVideo sampleConfig vreqSuccess).status = 200 ∧
    Effect.dbUpdateVideo { sampleVideo with videoURL := some urlZero } ∈
      (handlerUploadVideo sampleConfig vreqSuccess).effects ∧
    ¬ isS3VideoURL "bkt" "reg" 64 urlZero := by
  refine ⟨by decide, by decide, ?_⟩
  rintro ⟨cls, hex, hcls, hlen, -, hurl⟩
  have hl := congrArg String.length hurl
  simp only [String.length_append] at hl
  have h75 : urlZero.length = 75 := by decide
  have hc : cls.length = 9 ∨ cls.length = 8 ∨ cls.length = 5 := by
    rcases hcls with rfl | rfl | rfl
    · exact Or.inl (by decide)
    · exact Or.inr (Or.inl (by decide))
    · exact Or.inr (Or.inr (by decide))
  have e1 : "https://".length = 8 := by decide
  have e2 : "bkt".length = 3 := by decide
  have e3 : ".s3.".length = 4 := by decide
  have e4 : "reg".length = 3 := by decide
  have e5 : ".amazonaws.com/".length = 15 := by decide
  have e6 : "/".length = 1 := by decide
  have e7 : ".mp4".length = 4 := by decide
  rw [h75, e1, e2, e3, e4, e5, e6, e7, hlen] at hl
  omega

/-- C3, amended: every fully successful video upload stores the object under
the key `{classification}/{hex}.mp4` and records
`https://{bucket}.s3.{region}.amazonaws.com/{classification}/{hex}.mp4`, where
the classification is the computed orientation label and the random filename
component is 32 (not 64) hexadecimal characters. -/
theorem video_url_shape_thirtytwo_hex (cfg : ApiConfig) (req : VideoRequest) (vid uid : Nat)
    (tok ct tmp : String) (v : Video) (probe : FfprobeOutput)
    (h1 : req.videoIDResult = some vid) (h2 : req.tokenResult = some tok)
    (h3 : req.validateJWT tok = some uid) (h4 : req.dbGetVideo vid = some v)
    (h5 : v.userID = uid) (h6 : req.bodySize ≤ maxUploadSize)
    (h7 : req.formFilePart = some ct) (h8 : ct ≠ "")
    (h9 : req.parseMediaType ct = some "video/mp4")
    (h10 : req.createTempResult = some tmp)
    (h11 : req.copyOk = true) (h12 : req.seekOk = true) (h13 : req.ffmpegOk = true)
    (h14 : req.ffprobeResult = some probe) (h15 : req.randOk = true)
    (h16 : req.randomBytes.length = 16) (h17 : req.openProcessedOk = true)
    (h18 : req.putObjectOk = true) (h19 : req.updateVideoOk = true) :
    (handlerUploadVideo cfg req).status = 200 ∧
    Effect.s3PutObject cfg.s3Bucket
        (getVideoAspectRatio probe ++ "/" ++ hexEncode req.randomBytes ++ ".mp4") "video/mp4" ∈
      (handlerUploadVideo cfg req).effects ∧
    Effect.dbUpdateVideo
        { v with videoURL := some ("https://" ++ cfg.s3Bucket ++ ".s3." ++ cfg.s3Region ++
            ".amazonaws.com/" ++
            (getVideoAspectRatio probe ++ "/" ++ hexEncode req.randomBytes ++ ".mp4")) } ∈
      (handlerUploadVideo cfg req).effects ∧
    isS3VideoURL cfg.s3Bucket cfg.s3Region 32
      ("https://" ++ cfg.s3Bucket ++ ".s3." ++ cfg.s3Region ++ ".amazonaws.com/" ++
        (getVideoAspectRatio probe ++ "/" ++ hexEncode req.randomBytes ++ ".mp4")) := by
  refine ⟨?_, ?_, ?_, ⟨getVideoAspectRatio probe, hexEncode req.randomBytes,
    getVideoAspectRatio_mem probe, by rw [hexEncode_length, h16], hexEncode_mem req.randomBytes,
    rfl⟩⟩ <;>
    (unfold handlerUploadVideo
     simp [h1, h2, h3, h4, h5, h7, h8, h9, h10, h11, h12, h13, h14, h15, h17, h18, h19,
       Nat.not_lt.mpr h6])

/-- C3, witness: the amended theorem applied to the concrete all-success video
request. -/
theorem video_url_shape_thirtytwo_hex_witness :
    (handlerUploadVideo sampleConfig vreqSuccess).status = 200 ∧
    Effect.s3PutObject sampleConfig.s3Bucket
        (getVideoAspectRatio ⟨[]⟩ ++ "/" ++ hexEncode vreqSuccess.randomBytes ++ ".mp4")
        "video/mp4" ∈
      (handlerUploadVideo sampleConfig vreqSuccess).effects ∧
    Effect.dbUpdateVideo
        { sampleVideo with videoURL := some ("https://" ++ sampleConfig.s3Bucket ++ ".s3." ++
            sampleConfig.s3Region ++ ".amazonaws.com/" ++
            (getVideoAspectRatio ⟨[]⟩ ++ "/" ++ hexEncode vreqSuccess.randomBytes ++ ".mp4")) } ∈
      (handlerUploadVideo sampleConfig vreqSuccess).effects ∧
    isS3VideoURL sampleConfig.s3Bucket sampleConfig.s3Region 32
      ("https://" ++ sampleConfig.s3Bucket ++ ".s3." ++ sampleConfig.s3Region ++
        ".amazonaws.com/" ++
        (getVideoAspectRatio ⟨[]⟩ ++ "/" ++ hexEncode vreqSuccess.randomBytes ++ ".mp4")) :=
  video_url_shape_thirtytwo_hex sampleConfig vreqSuccess 7 2 "tok" "video/mp4"
    "/tmp/tubely-upload-1.mp4" sampleVideo ⟨[]⟩
    rfl rfl rfl rfl rfl (by decide) rfl (by decide) rfl rfl rfl rfl rfl rfl rfl (by decide)
    rfl rfl rfl

/-- C4: evaluating the video handler at the failing input — `ffmpeg` exits
non-zero after partially writing its output — shows the request ends 500 with
the partially written `.processed` file still on disk, while the same request
with `ffmpeg` succeeding leaves no file behind.  The claim (and the spec's
cleanup guarantee) says the partial output is removed on this path too; the
code registers `defer os.Remove(processedFilePath)` only after the error
return, so the file leaks. -/
theorem ffmpeg_failure_leaves_processed_file :
    (handlerUploadVideo sampleConfig vreqFfmpegFails).status = 500 ∧
    remainingFiles (handlerUploadVideo sampleConfig vreqFfmpegFails).effects =
      [processedFilePath "/tmp/tubely-upload-1.mp4"] ∧
    remainingFiles (handlerUploadVideo sampleConfig vreqSuccess).effects = [] := by
  decide

/-- C5, counterexample: an authenticated request for an absent record draws
status 500 (internal server error), not a 404 not-found; and the thumbnail
handler has already persisted the uploaded file when the lookup fails. -/
theorem record_not_found_internal_error_counterexample :
    vreqNotFound.dbGetVideo 7 = none ∧
    (handlerUploadVideo sampleConfig vreqNotFound).status = 500 ∧
    (handlerUploadVideo sampleConfig vreqNotFound).status ≠ 404 ∧
    (handlerUploadVideo sampleConfig vreqNotFound).message = "Couldn't find video" ∧
    (handlerUploadThumbnail sampleConfig treqNotFound).status = 500 ∧
    remainingFiles (handlerUploadThumbnail sampleConfig treqNotFound).effects ≠ [] := by
  decide

/-- C5, amended: when the target record is absent, both handlers abort with
status 500 and the message `Couldn't find video` (distinct in message, though
not in status class, from the credential and ownership errors, and not a 404);
the record store is not updated and no object is uploaded; the video handler
performs no side effect, while the thumbnail handler has already written the
uploaded file to the assets directory. -/
theorem record_not_found_internal_error_no_update
    (cfg : ApiConfig) (vreq : VideoRequest) (treq : ThumbnailRequest)
    (vid uid tid uid2 : Nat) (tok tok2 ct mt : String)
    (h1 : vreq.videoIDResult = some vid) (h2 : vreq.tokenResult = some tok)
    (h3 : vreq.validateJWT tok = some uid) (h4 : vreq.dbGetVideo vid = none)
    (g1 : treq.videoIDResult = some tid) (g2 : treq.tokenResult = some tok2)
    (g3 : treq.validateJWT tok2 = some uid2) (g4 : treq.parseFormOk = true)
    (g5 : treq.formFilePart = some ct) (g6 : ct ≠ "")
    (g7 : treq.parseMediaType ct = some mt)
    (g8 : mt = "image/jpeg" ∨ mt = "image/png")
    (g9 : treq.randOk = true) (g10 : treq.createOk = true) (g11 : treq.copyOk = true)
    (g12 : treq.dbGetVideo tid = none) :
    handlerUploadVideo cfg vreq = ⟨500, "Couldn't find video", []⟩ ∧
    (handlerUploadThumbnail cfg treq).status = 500 ∧
    (handlerUploadThumbnail cfg treq).message = "Couldn't find video" ∧
    recordMutated (handlerUploadThumbnail cfg treq) = false ∧
    (handlerUploadThumbnail cfg treq).effects.any Effect.isS3Put = false ∧
    remainingFiles (handlerUploadThumbnail cfg treq).effects =
      [cfg.assetsRoot ++ "/" ++ base64RawUrlEncode treq.randomBytes ++ thumbExtension mt] := by
  refine ⟨?_, ?_⟩
  · unfold handlerUploadVideo
    simp [h1, h2, h3, h4]
  · unfold handlerUploadThumbnail
    rcases g8 with rfl | rfl <;>
      simp [g1, g2, g3, g4, g5, g6, g7, g9, g10, g11, g12, thumbExtension,
        recordMutated, remainingFiles, Effect.isRecordUpdate, Effect.isS3Put]

/-- C5, witness: the amended theorem applied to the concrete absent-record
requests. -/
theorem record_not_found_internal_error_no_update_witness :
    handlerUploadVideo sampleConfig vreqNotFound = ⟨500, "Couldn't find video", []⟩ ∧
    (handlerUploadThumbnail sampleConfig treqNotFound).status = 500 ∧
    (handlerUploadThumbnail sampleConfig treqNotFound).message = "Couldn't find video" ∧
    recordMutated (handlerUploadThumbnail sampleConfig treqNotFound) = false ∧
    (handlerUploadThumbnail sampleConfig treqNotFound).effects.any Effect.isS3Put = false ∧
    remainingFiles (handlerUploadThumbnail sampleConfig treqNotFound).effects =
      [sampleConfig.assetsRoot ++ "/" ++ base64RawUrlEncode treqNotFound.randomBytes ++
        thumbExtension "image/png"] :=
  record_not_found_internal_error_no_update sampleConfig vreqNotFound treqNotFound
    7 2 7 2 "tok" "tok" "image/png" "image/png"
    rfl rfl rfl rfl rfl rfl rfl rfl rfl (by decide) rfl (Or.inr rfl) rfl rfl rfl rfl

/-- C6: once authentication (and, for video, ownership) has passed, each
handler responds 400 bad request when the named file part is absent, when the
part declares no Content-Type, when the Content-Type fails to parse, or when
the parsed media type is outside the endpoint's allowed set (video: exactly
`video/mp4`; thumbnail: `image/jpeg` or `image/png`). -/
theorem upload_intake_validation_bad_request
    (cfg : ApiConfig) (vreq : VideoRequest) (treq : ThumbnailRequest)
    (vid uid tid uid2 : Nat) (tok tok2 : String) (v : Video)
    (h1 : vreq.videoIDResult = some vid) (h2 : vreq.tokenResult = some tok)
    (h3 : vreq.validateJWT tok = some uid) (h4 : vreq.dbGetVideo vid = some v)
    (h5 : v.userID = uid)
    (g1 : treq.videoIDResult = some tid) (g2 : treq.tokenResult = some tok2)
    (g3 : treq.validateJWT tok2 = some uid2) (g4 : treq.parseFormOk = true) :
    (vreq.formFilePart = none → (handlerUploadVideo cfg vreq).status = 400) ∧
    (vreq.bodySize ≤ maxUploadSize → vreq.formFilePart = some "" →
      (handlerUploadVideo cfg vreq).status = 400) ∧
    (∀ ct, vreq.bodySize ≤ maxUploadSize → vreq.formFilePart = some ct →
      vreq.parseMediaType ct = none → (handlerUploadVideo cfg vreq).status = 400) ∧
    (∀ ct mt, vreq.bodySize ≤ maxUploadSize → vreq.formFilePart = some ct →
      vreq.parseMediaType ct = some mt → mt ≠ "video/mp4" →
      (handlerUploadVideo cfg vreq).status = 400) ∧
    (treq.formFilePart = none → (handlerUploadThumbnail cfg treq).status = 400) ∧
    (treq.formFilePart = some "" → (handlerUploadThumbnail cfg treq).status = 400) ∧
    (∀ ct, treq.formFilePart = some ct → treq.parseMediaType ct = none →
      (handlerUploadThumbnail cfg treq).status = 400) ∧
    (∀ ct mt, treq.formFilePart = some ct → treq.parseMediaType ct = some mt →
      mt ≠ "image/jpeg" → mt ≠ "image/png" →
      (handlerUploadThumbnail cfg treq).status = 400) := by
  unfold handlerUploadVideo handlerUploadThumbnail
  refine ⟨?_, ?_, ?_, ?_, ?_, ?_, ?_, ?_⟩
  · intro hf
    simp [h1, h2, h3, h4, h5, hf]
  · intro hb hf
    simp [h1, h2, h3, h4, h5, hf, Nat.not_lt.mpr hb]
  · intro ct hb hf hp
    by_cases hc : ct = ""
    · subst hc; simp [h1, h2, h3, h4, h5, hf, Nat.not_lt.mpr hb]
    · simp [h1, h2, h3, h4, h5, hf, hp, hc, Nat.not_lt.mpr hb]
  · intro ct mt hb hf hp hm
    by_cases hc : ct = ""
    · subst hc; simp [h1, h2, h3, h4, h5, hf, Nat.not_lt.mpr hb]
    · simp [h1, h2, h3, h4, h5, hf, hp, hc, hm, Nat.not_lt.mpr hb]
  · intro hf
    simp [g1, g2, g3, g4, hf]
  · intro hf
    simp [g1, g2, g3, g4, hf]
  · intro ct hf hp
    by_cases hc : ct = ""
    · subst hc; simp [g1, g2, g3, g4, hf]
    · simp [g1, g2, g3, g4, hf, hp, hc]
  · intro ct mt hf hp hj hg
    by_cases hc : ct = ""
    · subst hc; simp [g1, g2, g3, g4, hf]
    · simp [g1, g2, g3, g4, hf, hp, hc, hj, hg]

/-- C6, witness: a thumbnail upload declaring `image/gif` is rejected with 400
bad request. -/
theorem upload_intake_validation_bad_request_witness :
    (handlerUploadThumbnail sampleConfig treqGif).status = 400 ∧
    treqGif.formFilePart = some "image/gif" :=
  ⟨(upload_intake_validation_bad_request sampleConfig vreqSuccess treqGif 7 2 7 2 "tok" "tok"
      sampleVideo rfl rfl rfl rfl rfl rfl rfl rfl rfl).2.2.2.2.2.2.2
      "image/gif" "image/gif" rfl rfl (by decide) (by decide),
    rfl⟩

/-- C7: when the bearer token is missing or fails validation, both handlers
respond 401 unauthorized with an empty effect list — no record mutation, no
file written, no object uploaded. -/
theorem missing_or_invalid_jwt_unauthorized_no_mutation
    (cfg : ApiConfig) (vreq : VideoRequest) (treq : ThumbnailRequest) (vid tid : Nat)
    (hv : vreq.videoIDResult = some vid) (ht : treq.videoIDResult = some tid)
    (hva : vreq.tokenResult = none ∨ ∃ t, vreq.tokenResult = some t ∧ vreq.validateJWT t = none)
    (hta : treq.tokenResult = none ∨ ∃ t, treq.tokenResult = some t ∧ treq.validateJWT t = none) :
    (handlerUploadVideo cfg vreq).status = 401 ∧ (handlerUploadVideo cfg vreq).effects = [] ∧
    (handlerUploadThumbnail cfg treq).status = 401 ∧
    (handlerUploadThumbnail cfg treq).effects = [] := by
  unfold handlerUploadVideo handlerUploadThumbnail
  rcases hva with h | ⟨t, h1, h2⟩ <;> rcases hta with g | ⟨u, g1, g2⟩ <;>
    simp [hv, ht, *]

/-- C7, witness: the theorem applied to the concrete missing-token requests. -/
theorem missing_or_invalid_jwt_unauthorized_no_mutation_witness :
    (handlerUploadVideo sampleConfig vreqNoToken).status = 401 ∧
    (handlerUploadVideo sampleConfig vreqNoToken).effects = [] ∧
    (handlerUploadThumbnail sampleConfig treqNoToken).status = 401 ∧
    (handlerUploadThumbnail sampleConfig treqNoToken).effects = [] :=
  missing_or_invalid_jwt_unauthorized_no_mutation sampleConfig vreqNoToken treqNoToken 7 7
    rfl rfl (Or.inl rfl) (Or.inl rfl)

/-- C8, counterexample: a thumbnail upload whose 20 MiB body is twice the
10 MiB figure is accepted with status 200 — `ParseMultipartForm`'s `maxMemory`
is a buffering threshold, not a size limit, so the claim that such a request
fails is false. -/
theorem thumbnail_oversized_accepted_counterexample :
    treqOversized.bodySize = 20 <<< 20 ∧ maxMemory = 10 <<< 20 ∧
    treqOversized.bodySize > maxMemory ∧
    (handlerUploadThumbnail sampleConfig treqOversized).status = 200 := by
  decide

/-- C8, amended: a video upload whose body exceeds 1 GiB never succeeds (the
`MaxBytesReader` wrapper fails the multipart parse), while the thumbnail
handler's outcome is entirely independent of the body size — the 10 MiB
figure only bounds in-memory buffering of the parsed form, and an oversized
thumbnail body is accepted rather than rejected. -/
theorem upload_size_limit_behavior
    (cfg : ApiConfig) (vreq : VideoRequest) (treq : ThumbnailRequest) (n : Nat)
    (h : vreq.bodySize > maxUploadSize) :
    (handlerUploadVideo cfg vreq).status ≠ 200 ∧
    handlerUploadThumbnail cfg { treq with bodySize := n } = handlerUploadThumbnail cfg treq := by
  constructor
  · cases hA : vreq.videoIDResult with
    | none => unfold handlerUploadVideo; simp [hA]
    | some vid =>
      cases hB : vreq.tokenResult with
      | none => unfold handlerUploadVideo; simp [hA, hB]
      | some tok =>
        cases hC : vreq.validateJWT tok with
        | none => unfold handlerUploadVideo; simp [hA, hB, hC]
        | some uid =>
          cases hD : vreq.dbGetVideo vid with
          | none => unfold handlerUploadVideo; simp [hA, hB, hC, hD]
          | some v =>
            by_cases hv : v.userID = uid
            · unfold handlerUploadVideo
              simp [hA, hB, hC, hD, hv, h]
            · unfold handlerUploadVideo
              simp [hA, hB, hC, hD, hv]
  · rfl

/-- C8, witness: the amended theorem applied to a video request one byte over
the limit and a thumbnail request whose body size is changed to 99. -/
theorem upload_size_limit_behavior_witness :
    vreqOversized.bodySize > maxUploadSize ∧
    (handlerUploadVideo sampleConfig vreqOversized).status ≠ 200 ∧
    handlerUploadThumbnail sampleConfig { treqSuccess with bodySize := 99 } =
      handlerUploadThumbnail sampleConfig treqSuccess :=
  ⟨by decide, upload_size_limit_behavior sampleConfig vreqOversized treqSuccess 99 (by decide)⟩

/-- C9: every accepted thumbnail upload writes the file
`{assetsRoot}/{base64RawUrlEncode of the 32 random bytes}{ext}` and records
`http://localhost:{port}/assets/{same name}{ext}`, where the extension is
`.jpg` for `image/jpeg` and `.png` for `image/png`; the filename is 43
characters (the unpadded base64 length of 32 bytes) over the URL-safe
alphabet. -/
theorem thumbnail_filename_and_url_shape (cfg : ApiConfig) (req : ThumbnailRequest)
    (vid uid : Nat) (tok ct mt : String) (v : Video)
    (g1 : req.videoIDResult = some vid) (g2 : req.tokenResult = some tok)
    (g3 : req.validateJWT tok = some uid) (g4 : req.parseFormOk = true)
    (g5 : req.formFilePart = some ct) (g6 : ct ≠ "")
    (g7 : req.parseMediaType ct = some mt)
    (g8 : mt = "image/jpeg" ∨ mt = "image/png")
    (g9 : req.randOk = true) (g10 : req.createOk = true) (g11 : req.copyOk = true)
    (g12 : req.dbGetVideo vid = some v) (g13 : v.userID = uid)
    (g14 : req.updateVideoOk = true) (g15 : req.randomBytes.length = 32) :
    (handlerUploadThumbnail cfg req).status = 200 ∧
    Effect.fileCreated
        (cfg.assetsRoot ++ "/" ++ base64RawUrlEncode req.randomBytes ++ thumbExtension mt) ∈
      (handlerUploadThumbnail cfg req).effects ∧
    Effect.dbUpdateVideo
        { v with thumbnailURL := some ("http://localhost:" ++ cfg.port ++ "/assets/" ++
            base64RawUrlEncode req.randomBytes ++ thumbExtension mt) } ∈
      (handlerUploadThumbnail cfg req).effects ∧
    (base64RawUrlEncode req.randomBytes).length = 43 ∧
    (∀ c ∈ (base64RawUrlEncode req.randomBytes).data, c ∈ base64UrlAlphabet) ∧
    (mt = "image/jpeg" → thumbExtension mt = ".jpg") ∧
    (mt = "image/png" → thumbExtension mt = ".png") := by
  have hlen : (base64RawUrlEncode req.randomBytes).length = 43 := by
    rw [base64RawUrlEncode_length, g15]
  obtain rfl | rfl := g8
  · refine ⟨?_, ?_, ?_, hlen, base64RawUrlEncode_mem req.randomBytes,
      fun _ => rfl, fun hh => absurd hh (by decide)⟩ <;>
      (unfold handlerUploadThumbnail
       simp [g1, g2, g3, g4, g5, g6, g7, g9, g10, g11, g12, g13, g14, thumbExtension])
  · refine ⟨?_, ?_, ?_, hlen, base64RawUrlEncode_mem req.randomBytes,
      fun hh => absurd hh (by decide), fun _ => rfl⟩ <;>
      (unfold handlerUploadThumbnail
       simp [g1, g2, g3, g4, g5, g6, g7, g9, g10, g11, g12, g13, g14, thumbExtension])

/-- C9, witness: the theorem applied to the concrete all-success PNG
thumbnail request. -/
theorem thumbnail_filename_and_url_shape_witness :
    (handlerUploadThumbnail sampleConfig treqSuccess).status = 200 ∧
    Effect.fileCreated
        (sampleConfig.assetsRoot ++ "/" ++ base64RawUrlEncode treqSuccess.randomBytes ++
          thumbExtension "image/png") ∈
      (handlerUploadThumbnail sampleConfig treqSuccess).effects ∧
    Effect.dbUpdateVideo
        { sampleVideo with thumbnailURL := some ("http://localhost:" ++ sampleConfig.port ++
            "/assets/" ++ base64RawUrlEncode treqSuccess.randomBytes ++
            thumbExtension "image/png") } ∈
      (handlerUploadThumbnail sampleConfig treqSuccess).effects ∧
    (base64RawUrlEncode treqSuccess.randomBytes).length = 43 ∧
    (∀ c ∈ (base64RawUrlEncode treqSuccess.randomBytes).data, c ∈ base64UrlAlphabet) ∧
    ("image/png" = "image/jpeg" → thumbExtension "image/png" = ".jpg") ∧
    ("image/png" = "image/png" → thumbExtension "image/png" = ".png") :=
  thumbnail_filename_and_url_shape sampleConfig treqSuccess 7 2 "tok" "image/png" "image/png"
    sampleVideo rfl rfl rfl rfl rfl (by decide) rfl (Or.inr rfl) rfl rfl rfl rfl rfl rfl
    (by decide)

/-- C10: on any probe output with at least one stream the classification is
total and lands in the closed set {landscape, portrait, other}; in particular
the degenerate dimensions height = 0, width = height = 0 and width = 0 are
classified (`other`) rather than faulting — under IEEE semantics they produce
`+Inf`, `NaN` and `0`, under the embedding's zero-divisor convention `0`, and
every one of those values fails both tolerance comparisons. -/
theorem aspect_ratio_classification_total :
    (∀ (s : VideoStream) (rest : List VideoStream),
      getVideoAspectRatio ⟨s :: rest⟩ = "landscape" ∨
      getVideoAspectRatio ⟨s :: rest⟩ = "portrait" ∨
      getVideoAspectRatio ⟨s :: rest⟩ = "other") ∧
    getVideoAspectRatio ⟨[⟨1920, 0⟩]⟩ = "other" ∧
    getVideoAspectRatio ⟨[⟨0, 0⟩]⟩ = "other" ∧
    getVideoAspectRatio ⟨[⟨0, 1080⟩]⟩ = "other" := by
  refine ⟨fun s rest => getVideoAspectRatio_mem ⟨s :: rest⟩, by decide, by decide, by decide⟩

end Storage
